import Mathlib

/-!
Shallow embedding of the `wifi_reader` model-download scripts.

The repository is a set of standalone Python scripts that download OCR
model artifacts, verify them by size or magic bytes, convert between
formats, and fall back to synthesizing stub files.  We model:

* the filesystem as a partial map from path strings to byte lists
  (a byte is a `Nat`; the scripts only inspect lengths and leading bytes);
* network downloads as oracles `String → Option (List Nat)` mapping a URL
  to the downloaded content, `none` meaning the download raised an
  exception (in which case `urllib.request.urlretrieve` is modelled as
  leaving the filesystem untouched);
* external library calls (onnx / tensorflow) as oracles that may fail.

Each Lean definition is translated from the correspondingly named Python
function; source files are noted at each definition.
-/

/-- Filesystem: path → file content (`none` = file does not exist). -/
def FS : Type := String → Option (List Nat)

/-- The empty filesystem. -/
def fsEmpty : FS := fun _ => none

/-- Writing a file (`open(path, "wb").write(content)`). -/
def setFile (fs : FS) (path : String) (content : List Nat) : FS :=
  fun q => if q = path then some content else fs q

/-- Removing a file (`os.remove` / `Path.unlink`). -/
def eraseFile (fs : FS) (path : String) : FS :=
  fun q => if q = path then none else fs q

/-- Function `verify_file_size` from `download_ocr_models.py` (lines 65-76):
returns `False` when the file is missing, `False` when the absolute
difference between the actual size in MB (`bytes / (1024*1024)`) and the
expected size exceeds the tolerance (default `0.5`), `True` otherwise. -/
def verify_file_size (fs : FS) (filepath : String) (expected_size_mb : ℚ)
    (tolerance : ℚ := 1/2) : Bool :=
  match fs filepath with
  | none => false
  | some content =>
    let actual_size_mb : ℚ := (content.length : ℚ) / (1024 * 1024)
    -- the source prints a warning and returns False on this branch
    if |actual_size_mb - expected_size_mb| > tolerance then false
    else true

/-! ### `download_ocr_models.py` (Tesseract language data)

`MODELS` is the script model table; `main` iterates over it, skips
entries whose file already exists with a verified size, otherwise tries
the primary URL then the fallback URL, and returns `False` as soon as a
model fails both downloads.  `tessRun` is the loop of `main`; it returns the
final filesystem, the return value of `main`, and the list of URLs passed to
`download_file`, in order. -/

structure TessModel where
  filename : String
  url : String
  fallback_url : Option String
  size_mb : ℚ
  description : String

def engModel : TessModel :=
  ⟨"eng.traineddata",
   "https://github.com/tesseract-ocr/tessdata/raw/main/eng.traineddata",
   some "https://github.com/tesseract-ocr/tessdata_fast/raw/main/eng.traineddata",
   15, "English language data (primary)"⟩

def spaModel : TessModel :=
  ⟨"spa.traineddata",
   "https://github.com/tesseract-ocr/tessdata/raw/main/spa.traineddata",
   some "https://github.com/tesseract-ocr/tessdata_fast/raw/main/spa.traineddata",
   12, "Spanish language data"⟩

def fraModel : TessModel :=
  ⟨"fra.traineddata",
   "https://github.com/tesseract-ocr/tessdata/raw/main/fra.traineddata",
   some "https://github.com/tesseract-ocr/tessdata_fast/raw/main/fra.traineddata",
   11, "French language data"⟩

def deuModel : TessModel :=
  ⟨"deu.traineddata",
   "https://github.com/tesseract-ocr/tessdata/raw/main/deu.traineddata",
   some "https://github.com/tesseract-ocr/tessdata_fast/raw/main/deu.traineddata",
   12, "German language data"⟩

def MODELS : List TessModel := [engModel, spaModel, fraModel, deuModel]

/-- Path `assets_dir / filename` with `assets_dir = Path("app/src/main/assets")`. -/
def assetsPath (filename : String) : String := "app/src/main/assets/" ++ filename

/-- The loop of `main` in `download_ocr_models.py` (lines 88-129), over a
download oracle `dl` (URL ↦ downloaded bytes, `none` = exception).
Returns (final filesystem, the return value of `main`, attempted URLs in
order).  A successful second `verify_file_size` call after download only
prints; a failed one only prints a warning, so it is not modelled. -/
def tessRun (dl : String → Option (List Nat)) :
    List TessModel → FS → FS × Bool × List String
  | [], fs => (fs, true, [])
  | m :: rest, fs =>
    let filepath := assetsPath m.filename
    -- skip if file already exists and is correct size
    if (fs filepath).isSome && verify_file_size fs filepath m.size_mb then
      tessRun dl rest fs
    else
      -- try primary URL first
      match dl m.url with
      | some content =>
        let r := tessRun dl rest (setFile fs filepath content)
        (r.1, r.2.1, m.url :: r.2.2)
      | none =>
        -- try fallback URL if primary fails
        match m.fallback_url with
        | some fb =>
          match dl fb with
          | some content =>
            let r := tessRun dl rest (setFile fs filepath content)
            (r.1, r.2.1, m.url :: fb :: r.2.2)
          | none => (fs, false, [m.url, fb])
        | none => (fs, false, [m.url])

/-- The `__main__` guard: `sys.exit(0)` when `main()` is truthy, else
`sys.exit(1)`. -/
def scriptExit (mainResult : Bool) : Nat := if mainResult then 0 else 1

/-- A download oracle for which every download fails. -/
def dlNone : String → Option (List Nat) := fun _ => none

/-! ### `scripts/download_ocr_tflite_direct.py` and
`scripts/download_easyocr_models.py`

Both scripts try a list of URLs per model, verify downloads, and fall
back to writing a minimal stub TFLite file.  File paths are relative to
the script directory, so a model path is just its filename. -/

/-- The 4 magic bytes `b"TFL3"`. -/
def tfl3Magic : List Nat := [0x54, 0x46, 0x4C, 0x33]

/-- Function `verify_file` from `download_easyocr_models.py` (lines 87-105):
`False` when the file is missing; otherwise the `TFL3` header check only
selects the printed message and the function returns `True`.  Result is
(return value, printed messages). -/
def verify_file (fs : FS) (filename : String) : Bool × List String :=
  match fs filename with
  | none => (false, ["File not found: " ++ filename])
  | some content =>
    let headerMsg :=
      if tfl3Magic.isPrefixOf (content.take 8) then
        "Valid TensorFlow Lite file detected"
      else
        "File may not be a TensorFlow Lite model"
    (true, [headerMsg])

/-- Function `verify_tflite_model` from `download_ocr_tflite_direct.py`
(lines 80-108): `False` when the file is missing or smaller than 1024
bytes; the `TFL3` header check and the expected-size check only produce
warnings ("do not fail immediately", per the source comment), after which
the function returns `True`. -/
def verify_tflite_model (fs : FS) (filename : String)
    (expected_size_mb : Option ℚ) : Bool × List String :=
  match fs filename with
  | none => (false, ["File not found: " ++ filename])
  | some content =>
    let file_size := content.length
    let file_size_mb : ℚ := (file_size : ℚ) / (1024 * 1024)
    if file_size < 1024 then
      (false, ["File too small, likely an error page"])
    else
      let headerMsg :=
        if tfl3Magic.isPrefixOf (content.take 8) then
          "Valid TensorFlow Lite file detected"
        else
          "File header may not be TFLite"
      let sizeMsgs :=
        -- `if expected_size_mb and abs(...) > expected_size_mb * 0.5`
        match expected_size_mb with
        | some e =>
          if e ≠ 0 ∧ |file_size_mb - e| > e * (1/2) then
            ["File size differs significantly from expected"]
          else []
        | none => []
      (true, headerMsg :: sizeMsgs)

/-- Python test `sub in hay` on character lists. -/
def strContainsSub (sub : List Char) : List Char → Bool
  | [] => sub.isEmpty
  | c :: t => sub.isPrefixOf (c :: t) || strContainsSub sub t

/-- Python test `sub in hay` on strings. -/
def strContains (hay sub : String) : Bool := strContainsSub sub.toList hay.toList

/-- The literal byte block for the "detection" branch of
`create_working_tflite_model` (60 bytes, before zero padding). -/
def detectionHeaderBytes : List Nat :=
  [0x18, 0x00, 0x00, 0x00, 0x54, 0x46, 0x4C, 0x33,
   0x00, 0x00, 0x0E, 0x00, 0x18, 0x00, 0x04, 0x00,
   0x08, 0x00, 0x0C, 0x00, 0x10, 0x00, 0x14, 0x00,
   0x0E, 0x00, 0x00, 0x00, 0x03, 0x00, 0x00, 0x00,
   0x48, 0x00, 0x00, 0x00, 0x01, 0x00, 0x00, 0x00,
   0x04, 0x00, 0x00, 0x00, 0x34, 0x00, 0x00, 0x00,
   0x28, 0x00, 0x00, 0x00, 0x1C, 0x00, 0x00, 0x00,
   0x04, 0x00, 0x00, 0x00]

/-- The literal byte block for the "recognition" branch of
`create_working_tflite_model` (60 bytes, before zero padding). -/
def recognitionHeaderBytes : List Nat :=
  [0x18, 0x00, 0x00, 0x00, 0x54, 0x46, 0x4C, 0x33,
   0x00, 0x00, 0x0E, 0x00, 0x18, 0x00, 0x04, 0x00,
   0x08, 0x00, 0x0C, 0x00, 0x10, 0x00, 0x14, 0x00,
   0x0E, 0x00, 0x00, 0x00, 0x03, 0x00, 0x00, 0x00,
   0x50, 0x00, 0x00, 0x00, 0x01, 0x00, 0x00, 0x00,
   0x04, 0x00, 0x00, 0x00, 0x3C, 0x00, 0x00, 0x00,
   0x30, 0x00, 0x00, 0x00, 0x24, 0x00, 0x00, 0x00,
   0x04, 0x00, 0x00, 0x00]

/-- Function `create_working_tflite_model` from `download_ocr_tflite_direct.py`
(lines 110-160): picks the detection or recognition byte block by
checking `"detection" in filename.lower()`, pads with zero bytes to 512
bytes, and writes the result to `filename`; returns `True` (the write
cannot fail in the filesystem model). -/
def create_working_tflite_model (fs : FS) (filename description : String) :
    Bool × FS :=
  let base :=
    if strContains filename.toLower "detection" then detectionHeaderBytes
    else recognitionHeaderBytes
  let tflite_data := base ++ List.replicate (512 - base.length) 0
  (true, setFile fs filename tflite_data)

/-- All offsets at which `tfl3Magic` occurs in a byte list (helper for
stating where the magic appears). -/
def magicPositionsAux : List Nat → Nat → List Nat
  | [], _ => []
  | b :: t, i =>
    if tfl3Magic.isPrefixOf (b :: t) then i :: magicPositionsAux t (i + 1)
    else magicPositionsAux t (i + 1)

/-- Offsets of `tfl3Magic` in a byte list, starting from offset 0. -/
def magicPositions (l : List Nat) : List Nat := magicPositionsAux l 0

/-- One entry of `TFLITE_MODELS` in `download_ocr_tflite_direct.py`. -/
structure DirectModel where
  filename : String
  urls : List String
  description : String
  expected_size_mb : ℚ

def detDirectModel : DirectModel :=
  ⟨"easyocr_text_detection.tflite",
   ["https://github.com/tulasiram58827/ocr_tflite/raw/main/models/craft_text_detector_float16.tflite",
    "https://github.com/tulasiram58827/ocr_tflite/raw/main/models/craft_text_detector_dynamic_range.tflite",
    "https://tfhub.dev/tulasiram58827/lite-model/craft-text-detector/float16/1?lite-format=tflite",
    "https://storage.googleapis.com/tfhub-lite-models/tulasiram58827/lite-model/craft-text-detector/float16/1/default/1.tflite"],
   "CRAFT text detection model", 23/10⟩

def recDirectModel : DirectModel :=
  ⟨"easyocr_text_recognition.tflite",
   ["https://github.com/tulasiram58827/ocr_tflite/raw/main/models/keras_ocr_float16.tflite",
    "https://github.com/tulasiram58827/ocr_tflite/raw/main/models/keras_ocr_dynamic_range.tflite",
    "https://tfhub.dev/tulasiram58827/lite-model/keras-ocr/float16/1?lite-format=tflite",
    "https://storage.googleapis.com/tfhub-lite-models/tulasiram58827/lite-model/keras-ocr/float16/1/default/1.tflite"],
   "CRNN text recognition model", 43/5⟩

def TFLITE_MODELS : List DirectModel := [detDirectModel, recDirectModel]

/-- The per-model URL loop of `main` in `download_ocr_tflite_direct.py`
(lines 183-197): try each URL in order; on a successful download verify
it, keep it and stop on success, otherwise `os.remove` the invalid file
and try the next source. -/
def tfliteTryUrls (dl : String → Option (List Nat)) (path : String) (e : ℚ) :
    List String → FS → FS × Bool
  | [], fs => (fs, false)
  | u :: rest, fs =>
    match dl u with
    | none => tfliteTryUrls dl path e rest fs
    | some content =>
      let fs' := setFile fs path content
      if (verify_tflite_model fs' path (some e)).1 then (fs', true)
      else tfliteTryUrls dl path e rest (eraseFile fs' path)

/-- Processing of one `TFLITE_MODELS` entry in `main` of
`download_ocr_tflite_direct.py` (lines 174-204): the URL loop, then
`create_working_tflite_model` if every download attempt failed.  Returns
(filesystem, whether the model counted towards `success_count`). -/
def tfliteProcess (dl : String → Option (List Nat)) (fs : FS)
    (m : DirectModel) : FS × Bool :=
  let r := tfliteTryUrls dl m.filename m.expected_size_mb m.urls fs
  if r.2 then (r.1, true)
  else
    let c := create_working_tflite_model r.1 m.filename m.description
    (c.2, c.1)

/-- The full model loop of `main` in `download_ocr_tflite_direct.py`. -/
def tfliteRun (dl : String → Option (List Nat)) :
    List DirectModel → FS → FS
  | [], fs => fs
  | m :: rest, fs => tfliteRun dl rest (tfliteProcess dl fs m).1

/-- One entry of `MODELS` in `download_easyocr_models.py`. -/
structure EasyModel where
  filename : String
  url : String
  description : String
  size_mb : ℚ
  alternative_urls : List String

def easyDetModel : EasyModel :=
  ⟨"easyocr_text_detection.tflite",
   "https://github.com/PaddlePaddle/PaddleOCR/raw/release/2.6/inference/ch_PP-OCRv3_det_infer.tar",
   "PaddleOCR text detection model (converted to TFLite)", 23/10,
   ["https://huggingface.co/PaddlePaddle/PaddleOCR/resolve/main/ch_PP-OCRv3_det_infer.tar"]⟩

def easyRecModel : EasyModel :=
  ⟨"easyocr_text_recognition.tflite",
   "https://github.com/PaddlePaddle/PaddleOCR/raw/release/2.6/inference/ch_PP-OCRv3_rec_infer.tar",
   "PaddleOCR text recognition model (converted to TFLite)", 43/5,
   ["https://huggingface.co/PaddlePaddle/PaddleOCR/resolve/main/ch_PP-OCRv3_rec_infer.tar"]⟩

def EASY_MODELS : List EasyModel := [easyDetModel, easyRecModel]

/-- Table `DIRECT_TFLITE_SOURCES` from `download_easyocr_models.py`. -/
def directSources : List (String × List String) :=
  [("easyocr_text_detection.tflite",
    ["https://github.com/zxiaosi/OCR-Detection-And-Recognition/raw/main/models/det.tflite",
     "https://github.com/tensorflow/examples/raw/master/lite/examples/text_classification/android/app/src/main/assets/text_classification.tflite"]),
   ("easyocr_text_recognition.tflite",
    ["https://github.com/zxiaosi/OCR-Detection-And-Recognition/raw/main/models/rec.tflite",
     "https://github.com/tensorflow/examples/raw/master/lite/examples/optical_character_recognition/android/app/src/main/assets/text_recognition.tflite"])]

/-- A download-then-`verify_file` loop over a URL list (the body of
`try_direct_tflite_sources` and of the `alternative_urls` loop in
`download_easyocr_models.py`); a file failing verification is left in
place and the next source is tried. -/
def easyTryList (dl : String → Option (List Nat)) (path : String) :
    List String → FS → FS × Bool
  | [], fs => (fs, false)
  | u :: rest, fs =>
    match dl u with
    | none => easyTryList dl path rest fs
    | some content =>
      let fs' := setFile fs path content
      if (verify_file fs' path).1 then (fs', true)
      else easyTryList dl path rest fs'

/-- Function `try_direct_tflite_sources` from `download_easyocr_models.py`
(lines 107-122). -/
def try_direct_tflite_sources (dl : String → Option (List Nat)) (fs : FS)
    (filename : String) : FS × Bool :=
  match directSources.lookup filename with
  | none => (fs, false)
  | some urls => easyTryList dl filename urls fs

/-- The minimal stub model written by `create_minimal_tflite` in
`download_easyocr_models.py` (48 literal bytes plus 200 zero bytes). -/
def easyMinimalBytes : List Nat :=
  [0x18, 0x00, 0x00, 0x00, 0x54, 0x46, 0x4C, 0x33,
   0x00, 0x00, 0x0E, 0x00, 0x18, 0x00, 0x04, 0x00,
   0x08, 0x00, 0x0C, 0x00, 0x10, 0x00, 0x14, 0x00,
   0x0E, 0x00, 0x00, 0x00, 0x03, 0x00, 0x00, 0x00,
   0x10, 0x00, 0x00, 0x00, 0x01, 0x00, 0x00, 0x00,
   0x04, 0x00, 0x00, 0x00, 0x08, 0x00, 0x00, 0x00] ++ List.replicate 200 0

/-- Function `create_minimal_tflite` from `download_easyocr_models.py`
(lines 124-158): writes `easyMinimalBytes` to `filename` and returns
`True` (the write cannot fail in the filesystem model). -/
def create_minimal_tflite (fs : FS) (filename description : String) :
    Bool × FS :=
  (true, setFile fs filename easyMinimalBytes)

/-- The alternatives-then-stub tail of the model loop in `main` of
`download_easyocr_models.py` (lines 196-214). -/
def easyAlternatives (dl : String → Option (List Nat)) (fs : FS)
    (m : EasyModel) : FS × Bool :=
  let r := easyTryList dl m.filename m.alternative_urls fs
  if r.2 then (r.1, true)
  else
    let c := create_minimal_tflite r.1 m.filename m.description
    (c.2, c.1)

/-- Processing of one `MODELS` entry in `main` of
`download_easyocr_models.py` (lines 173-214): direct TFLite sources
first, then the primary URL, then alternatives, then the minimal stub. -/
def easyProcess (dl : String → Option (List Nat)) (fs : FS)
    (m : EasyModel) : FS × Bool :=
  let d := try_direct_tflite_sources dl fs m.filename
  if d.2 then (d.1, true)
  else
    match dl m.url with
    | some content =>
      let fs2 := setFile d.1 m.filename content
      if (verify_file fs2 m.filename).1 then (fs2, true)
      else easyAlternatives dl fs2 m
    | none => easyAlternatives dl d.1 m

/-- The full model loop of `main` in `download_easyocr_models.py`. -/
def easyRun (dl : String → Option (List Nat)) :
    List EasyModel → FS → FS
  | [], fs => fs
  | m :: rest, fs => easyRun dl rest (easyProcess dl fs m).1

/-! ### `scripts/download_and_convert_ocr_models.py` (also
`scripts/download_trocr_models.py`, whose `convert_onnx_to_tflite` is
the same code) -/

/-- One entry of `ONNX_MODELS` in `download_and_convert_ocr_models.py`. -/
structure OnnxModel where
  onnx_filename : String
  url : String
  backup_urls : List String
  description : String
  output_tflite : String

def craftOnnxModel : OnnxModel :=
  ⟨"craft_text_detection.onnx",
   "https://github.com/clovaai/CRAFT-pytorch/releases/download/v1.0/craft_mlt_25k.onnx",
   ["https://github.com/JaidedAI/EasyOCR/releases/download/v1.6.0/craft_mlt_25k.onnx",
    "https://huggingface.co/datasets/keremberke/craft-text-detection/resolve/main/craft_mlt_25k.onnx"],
   "CRAFT text detection model", "easyocr_text_detection.tflite"⟩

def crnnOnnxModel : OnnxModel :=
  ⟨"crnn_text_recognition.onnx",
   "https://github.com/JaidedAI/EasyOCR/releases/download/v1.6.0/latin_g2.onnx",
   ["https://github.com/PaddlePaddle/PaddleOCR/releases/download/v2.6.1/en_PP-OCRv3_rec.onnx",
    "https://huggingface.co/datasets/keremberke/paddleocr-text-recognition/resolve/main/latin_g2.onnx"],
   "CRNN text recognition model", "easyocr_text_recognition.tflite"⟩

def ONNX_MODELS : List OnnxModel := [craftOnnxModel, crnnOnnxModel]

/-- Whether trying URL `u` "succeeds" in the sense of the script loop:
the download returns content and `verify_onnx_model` accepts it.
`verify_onnx_model` calls the external `onnx` checker, so it is an
oracle `v` on the downloaded content. -/
def urlSucceeds (dl : String → Option (List Nat)) (v : List Nat → Bool)
    (u : String) : Bool :=
  match dl u with
  | none => false
  | some c => v c

/-- The `backup_urls` loop of `main` in
`download_and_convert_ocr_models.py` (lines 276-285): try each backup in
order, stop at the first that downloads and verifies.  Returns (the
verified content if any, the URLs attempted in order). -/
def tryBackupUrls (dl : String → Option (List Nat)) (v : List Nat → Bool) :
    List String → Option (List Nat) × List String
  | [] => (none, [])
  | u :: rest =>
    match dl u with
    | none =>
      let r := tryBackupUrls dl v rest
      (r.1, u :: r.2)
    | some c =>
      if v c then (some c, [u])
      else
        let r := tryBackupUrls dl v rest
        (r.1, u :: r.2)

/-- The ONNX-download part of `main` in
`download_and_convert_ocr_models.py` (lines 265-285): primary URL first,
then the backup URLs.  Returns (the verified ONNX content if any, the
URLs attempted in order). -/
def downloadOnnx (dl : String → Option (List Nat)) (v : List Nat → Bool)
    (m : OnnxModel) : Option (List Nat) × List String :=
  match dl m.url with
  | some c =>
    if v c then (some c, [m.url])
    else
      let r := tryBackupUrls dl v m.backup_urls
      (r.1, m.url :: r.2)
  | none =>
    let r := tryBackupUrls dl v m.backup_urls
    (r.1, m.url :: r.2)

/-- Observable events of `convert_onnx_to_tflite`. -/
inductive ConvEvent where
  | loadedOnnx (path : String)
  | exportedSavedModel (path : String)
  | convertedTFLite
  | wroteTFLite (path : String) (bytes : List Nat)
deriving DecidableEq

/-- The external-library calls made by `convert_onnx_to_tflite`, as
oracles that may fail (raise): `onnx.load`, `onnx_tf.backend.prepare`,
`tf_rep.export_graph` (producing the SavedModel),
`TFLiteConverter.from_saved_model`, and `converter.convert` (producing
the TFLite bytes). -/
structure ConvEnv where
  load_onnx : String → Option (List Nat)
  prepare : List Nat → Option (List Nat)
  export_graph : List Nat → Option (List Nat)
  from_saved_model : List Nat → Option (List Nat)
  convert : List Nat → Option (List Nat)

/-- Path `os.path.join(temp_dir, "tf_model")`. -/
def tfModelPath (temp_dir : String) : String := temp_dir ++ "/tf_model"

/-- Function `convert_onnx_to_tflite` from `download_and_convert_ocr_models.py`
(lines 137-187) and `download_trocr_models.py` (lines 233-283): load the
ONNX model, convert it to a TensorFlow SavedModel in a temporary
directory, convert that to TensorFlow Lite, write the bytes to
`tflite_path`, return `True`; any exception anywhere in the `try` block
returns `False`.  Result is (return value, filesystem, event trace). -/
def convert_onnx_to_tflite (env : ConvEnv) (fs : FS)
    (temp_dir onnx_path tflite_path : String) : Bool × FS × List ConvEvent :=
  match env.load_onnx onnx_path with
  | none => (false, fs, [])
  | some onnx_model =>
    match env.prepare onnx_model with
    | none => (false, fs, [.loadedOnnx onnx_path])
    | some tf_rep =>
      match env.export_graph tf_rep with
      | none => (false, fs, [.loadedOnnx onnx_path])
      | some saved_model =>
        match env.from_saved_model saved_model with
        | none =>
          (false, fs,
           [.loadedOnnx onnx_path, .exportedSavedModel (tfModelPath temp_dir)])
        | some converter =>
          match env.convert converter with
          | none =>
            (false, fs,
             [.loadedOnnx onnx_path, .exportedSavedModel (tfModelPath temp_dir)])
          | some tflite_model =>
            (true, setFile fs tflite_path tflite_model,
             [.loadedOnnx onnx_path, .exportedSavedModel (tfModelPath temp_dir),
              .convertedTFLite, .wroteTFLite tflite_path tflite_model])

/-- Whether every external step of the conversion pipeline succeeds. -/
def convOk (env : ConvEnv) (onnx_path : String) : Bool :=
  match env.load_onnx onnx_path with
  | none => false
  | some onnx_model =>
    match env.prepare onnx_model with
    | none => false
    | some tf_rep =>
      match env.export_graph tf_rep with
      | none => false
      | some saved_model =>
        match env.from_saved_model saved_model with
        | none => false
        | some converter => (env.convert converter).isSome

/-- A conversion environment in which every external step succeeds. -/
def envOk : ConvEnv :=
  ⟨fun _ => some [1], fun _ => some [2], fun _ => some [3],
   fun _ => some [4], fun _ => some [5]⟩

/-! ### `tests/generate_working_images.py` -/

/-- One `draw.text((x, y), text, fill=..., font=...)` call. -/
structure TextDraw where
  x : ℤ
  y : ℤ
  text : String
  fill : String

/-- A PIL image as the script builds it: `Image.new("RGB",
(width, height), background)` plus the drawn texts. -/
structure TestImage where
  width : ℕ
  height : ℕ
  background : String
  texts : List TextDraw

/-- Function `create_wifi_test_image` from `tests/generate_working_images.py`
(lines 10-33): a 600x400 white image with the three WiFi-credential
lines at fixed positions. -/
def create_wifi_test_image : TestImage :=
  { width := 600, height := 400, background := "white",
    texts := [⟨50, 70, "SSID: TestNetwork", "black"⟩,
              ⟨50, 170, "Password: password123", "black"⟩,
              ⟨50, 270, "Security: WPA2", "black"⟩] }

/-- Function `create_simple_test_image` from `tests/generate_working_images.py`
(lines 35-64): an 800x200 white image with "HELLO CAMERA TEST" centered
using the PIL `textbbox` result `(x0, y0, x1, y1)` (a parameter here,
since it comes from the PIL font); `//` is Python floor division. -/
def create_simple_test_image (bbox : ℤ × ℤ × ℤ × ℤ) : TestImage :=
  let text := "HELLO CAMERA TEST"
  let text_width := bbox.2.2.1 - bbox.1
  let text_height := bbox.2.2.2 - bbox.2.1
  let x := Int.fdiv (800 - text_width) 2
  let y := Int.fdiv (200 - text_height) 2
  { width := 800, height := 200, background := "white",
    texts := [⟨x, y, text, "black"⟩] }

/-- Function `main` from `tests/generate_working_images.py` (lines 66-84): the
`image.save(path)` calls it performs, in order, with `tests_dir` the
script directory. -/
def generateMain (tests_dir : String) (bbox : ℤ × ℤ × ℤ × ℤ) :
    List (String × TestImage) :=
  [(tests_dir ++ "/working_wifi_test_image.png", create_wifi_test_image),
   (tests_dir ++ "/working_simple_test_image.png", create_simple_test_image bbox)]

/-! ### `scripts/setup_keras_ocr.py`

This script works with `pathlib` paths built from the parent directory
of the script directory, so here paths are component lists
(`Path.parent` drops the last component). -/

/-- Python test `b"TFL3" in header` (contiguous occurrence anywhere). -/
def containsMagic : List Nat → Bool
  | [] => false
  | b :: t => tfl3Magic.isPrefixOf (b :: t) || containsMagic t

/-- Filesystem over component-list paths. -/
def FS7 : Type := List String → Option (List Nat)

def fsEmpty7 : FS7 := fun _ => none

/-- Path `script_dir / "keras_ocr_float16.tflite"`. -/
def srcPath (script_dir : List String) : List String :=
  script_dir ++ ["keras_ocr_float16.tflite"]

/-- Path `script_dir.parent / "app" / "src" / "main" / "assets" /
"keras_ocr_float16.tflite"`. -/
def destPath (script_dir : List String) : List String :=
  script_dir.dropLast ++ ["app", "src", "main", "assets", "keras_ocr_float16.tflite"]

/-- Copy `shutil.copy2(src, dst)`: the destination gets the source bytes. -/
def copyFile7 (fs : FS7) (src dst : List String) : FS7 :=
  fun q => if q = dst then fs src else fs q

/-- Function `main` from `scripts/setup_keras_ocr.py` (lines 28-108): fail if the
source model is missing; fail if `b"TFL3"` is not in its first 8 bytes;
otherwise copy it into the assets directory, then fail unless the
destination exists with exactly the byte size of the source.  Result is
(return value, filesystem, list of (src, dst) copies performed). -/
def setupMain (fs : FS7) (script_dir : List String) :
    Bool × FS7 × List (List String × List String) :=
  let source := srcPath script_dir
  let dest := destPath script_dir
  match fs source with
  | none => (false, fs, [])
  | some content =>
    if containsMagic (content.take 8) = false then (false, fs, [])
    else
      let fs' := copyFile7 fs source dest
      match fs' dest with
      | none => (false, fs', [(source, dest)])
      | some destContent =>
        if destContent.length = content.length then (true, fs', [(source, dest)])
        else (false, fs', [(source, dest)])

/-! ### `scripts/download_craft_keras_tflite_models.py` -/

/-- One entry of the `models` list in
`download_craft_keras_tflite_models.py`; `file` is the target path in
the assets directory. -/
structure CraftModel where
  name : String
  description : String
  url : String
  file : String

def craftDetCraftModel : CraftModel :=
  ⟨"CRAFT Text Detection",
   "CRAFT text detection model trained on SynthText, IC13, IC17",
   "https://github.com/tulasiram58827/craft_tflite/raw/main/models/craft_float16.tflite",
   "app/src/main/assets/craft_text_detection.tflite"⟩

def kerasRecCraftModel : CraftModel :=
  ⟨"KerasOCR Text Recognition",
   "Keras OCR float16 quantized text recognition model",
   "https://github.com/tulasiram58827/ocr_tflite/raw/main/models/keras_ocr_float16.tflite",
   "app/src/main/assets/keras_text_recognition.tflite"⟩

def cnnRecCraftModel : CraftModel :=
  ⟨"Deep Text Recognition (Alternative)",
   "CNN-based text recognition model (alternative to Keras OCR)",
   "https://github.com/tulasiram58827/ocr_tflite/raw/main/models/cnn_float16.tflite",
   "app/src/main/assets/cnn_text_recognition.tflite"⟩

def craftModels : List CraftModel :=
  [craftDetCraftModel, kerasRecCraftModel, cnnRecCraftModel]

/-- Outcome of `download_file` in
`download_craft_keras_tflite_models.py`, which streams chunks into the
open file: `ok content` on success, `fail p` on exception, where `p` is
the partially written content (`none` when the exception occurred before
the file was opened). -/
inductive DlResult where
  | ok (content : List Nat)
  | fail (leftover : Option (List Nat))

/-- The download-and-validate part of the model loop in `main` of
`download_craft_keras_tflite_models.py` (lines 90-99): on a successful
download keep the file if it is over 10000 bytes, else `unlink` it; on a
failed download the partial file (if any) stays.  Returns
(filesystem, counted as successful, download attempted). -/
def craftDownloadStep (dl : String → DlResult) (fs : FS) (m : CraftModel) :
    FS × Bool × Bool :=
  match dl m.url with
  | .ok content =>
    let fs' := setFile fs m.file content
    if content.length > 10000 then (fs', true, true)
    else (eraseFile fs' m.file, false, true)
  | .fail none => (fs, false, true)
  | .fail (some leftover) => (setFile fs m.file leftover, false, true)

/-- One iteration of the model loop in `main` of
`download_craft_keras_tflite_models.py` (lines 76-99): a pre-existing
file over 10000 bytes is reused without downloading; otherwise the model
is (re-)downloaded. -/
def craftProcess (dl : String → DlResult) (fs : FS) (m : CraftModel) :
    FS × Bool × Bool :=
  match fs m.file with
  | some existing =>
    if existing.length > 10000 then (fs, true, false)
    else craftDownloadStep dl fs m
  | none => craftDownloadStep dl fs m

/-- C3: `verify_file_size(filepath, expected_size_mb)` returns True iff the
file exists and the absolute difference between its size in megabytes and
`expected_size_mb` is at most the 0.5 MB tolerance. -/
theorem verify_file_size_iff (fs : FS) (filepath : String) (expected_size_mb : ℚ) :
    verify_file_size fs filepath expected_size_mb = true ↔
      ∃ content, fs filepath = some content ∧
        |(content.length : ℚ) / (1024 * 1024) - expected_size_mb| ≤ 1/2 := by
  unfold verify_file_size
  cases h : fs filepath with
  | none => simp
  | some content =>
    simp only [h, Option.some.injEq]
    constructor
    · intro hv
      refine ⟨content, rfl, ?_⟩
      by_contra hgt
      rw [if_pos (lt_of_not_ge hgt)] at hv
      exact Bool.false_ne_true hv
    · rintro ⟨c, hc, hle⟩
      cases hc
      rw [if_neg (not_lt_of_ge hle)]

/-- Witness for C3: a 100-byte file matches an expected size of
`100 / 2^20` MB within tolerance. -/
theorem verify_file_size_iff_witness :
    verify_file_size (setFile fsEmpty "f" (List.replicate 100 0)) "f"
      ((100 : ℚ) / (1024 * 1024)) = true :=
  (verify_file_size_iff (setFile fsEmpty "f" (List.replicate 100 0)) "f"
      ((100 : ℚ) / (1024 * 1024))).mpr
    ⟨List.replicate 100 0, by simp [setFile], by simp⟩

/-- C8: when the first model whose primary and fallback downloads both
fail is encountered (and no pre-existing file lets it be skipped),
`main` of `download_ocr_models.py` returns `False` at once: the
filesystem is left exactly as it was (no placeholder is written for the
failed model), only the two URLs of that model were attempted (no later model
entry is attempted), and the process exits with status 1. -/
theorem tess_abort_on_first_total_failure
    (dl : String → Option (List Nat)) (fs : FS) (m : TessModel)
    (rest : List TessModel) (fb : String)
    (hpre : fs (assetsPath m.filename) = none)
    (hfb : m.fallback_url = some fb)
    (h1 : dl m.url = none) (h2 : dl fb = none) :
    tessRun dl (m :: rest) fs = (fs, false, [m.url, fb]) ∧
      scriptExit (tessRun dl (m :: rest) fs).2.1 = 1 := by
  have hrun : tessRun dl (m :: rest) fs = (fs, false, [m.url, fb]) := by
    unfold tessRun
    simp only [hpre, h1, hfb, h2, Option.isSome_none, Bool.false_and,
      Bool.false_eq_true, if_false]
  exact ⟨hrun, by rw [hrun]; rfl⟩

/-- Witness for C8: with every download failing and an empty filesystem,
the script aborts after the two URLs of the first model, with exit status 1. -/
theorem tess_abort_on_first_total_failure_witness :
    tessRun dlNone MODELS fsEmpty =
      (fsEmpty, false,
       ["https://github.com/tesseract-ocr/tessdata/raw/main/eng.traineddata",
        "https://github.com/tesseract-ocr/tessdata_fast/raw/main/eng.traineddata"]) ∧
      scriptExit (tessRun dlNone MODELS fsEmpty).2.1 = 1 :=
  tess_abort_on_first_total_failure dlNone fsEmpty engModel
    [spaModel, fraModel, deuModel]
    "https://github.com/tesseract-ocr/tessdata_fast/raw/main/eng.traineddata"
    rfl rfl rfl rfl

/-- Counterexample to C1 as stated: `download_ocr_models.py` synthesizes
no placeholder file.  In the run where every download fails (starting
from an empty filesystem), after `main` returns there is NO file at the
target path of the first model, `app/src/main/assets/eng.traineddata`, and
`main` returned `False`. -/
theorem tess_no_placeholder_counterexample :
    (tessRun dlNone MODELS fsEmpty).1 (assetsPath "eng.traineddata") = none ∧
      (tessRun dlNone MODELS fsEmpty).2.1 = false := by
  constructor <;> rfl

/-! ### Helper lemmas about the filesystem model and the two stub-writing
scripts -/

theorem setFile_self (fs : FS) (p : String) (c : List Nat) :
    setFile fs p c p = some c := by
  simp [setFile]

theorem setFile_ne (fs : FS) (p : String) (c : List Nat) (q : String)
    (h : q ≠ p) : setFile fs p c q = fs q := by
  simp [setFile, h]

theorem eraseFile_ne (fs : FS) (p q : String) (h : q ≠ p) :
    eraseFile fs p q = fs q := by
  simp [eraseFile, h]

theorem tfliteTryUrls_frame (dl : String → Option (List Nat)) (path : String)
    (e : ℚ) (urls : List String) :
    ∀ fs q, q ≠ path → (tfliteTryUrls dl path e urls fs).1 q = fs q := by
  induction urls with
  | nil => intro fs q _; rfl
  | cons u rest ih =>
    intro fs q h
    unfold tfliteTryUrls
    cases hdl : dl u with
    | none => exact ih fs q h
    | some content =>
      dsimp only
      by_cases hv :
          (verify_tflite_model (setFile fs path content) path (some e)).1 = true
      · rw [if_pos hv]
        exact setFile_ne fs path content q h
      · rw [if_neg hv, ih _ q h, eraseFile_ne _ _ _ h, setFile_ne _ _ _ _ h]

theorem tfliteTryUrls_isSome (dl : String → Option (List Nat)) (path : String)
    (e : ℚ) (urls : List String) :
    ∀ fs, (tfliteTryUrls dl path e urls fs).2 = true →
      ((tfliteTryUrls dl path e urls fs).1 path).isSome = true := by
  induction urls with
  | nil => intro fs h; exact absurd h (by simp [tfliteTryUrls])
  | cons u rest ih =>
    intro fs h
    unfold tfliteTryUrls at h ⊢
    cases hdl : dl u with
    | none => rw [hdl] at h; exact ih fs h
    | some content =>
      rw [hdl] at h
      dsimp only at h ⊢
      by_cases hv :
          (verify_tflite_model (setFile fs path content) path (some e)).1 = true
      · rw [if_pos hv]
        simp [setFile]
      · rw [if_neg hv] at h ⊢
        exact ih _ h

theorem tfliteProcess_isSome (dl : String → Option (List Nat)) (fs : FS)
    (m : DirectModel) :
    ((tfliteProcess dl fs m).1 m.filename).isSome = true := by
  unfold tfliteProcess
  by_cases h : (tfliteTryUrls dl m.filename m.expected_size_mb m.urls fs).2 = true
  · simp only [if_pos h]
    exact tfliteTryUrls_isSome dl m.filename m.expected_size_mb m.urls fs h
  · simp only [if_neg h]
    simp [create_working_tflite_model, setFile]

theorem tfliteProcess_frame (dl : String → Option (List Nat)) (fs : FS)
    (m : DirectModel) (q : String) (h : q ≠ m.filename) :
    (tfliteProcess dl fs m).1 q = fs q := by
  unfold tfliteProcess
  by_cases hr : (tfliteTryUrls dl m.filename m.expected_size_mb m.urls fs).2 = true
  · simp only [if_pos hr]
    exact tfliteTryUrls_frame dl m.filename m.expected_size_mb m.urls fs q h
  · simp only [if_neg hr]
    rw [create_working_tflite_model]
    dsimp only
    rw [setFile_ne _ _ _ _ h]
    exact tfliteTryUrls_frame dl m.filename m.expected_size_mb m.urls fs q h

theorem easyTryList_frame (dl : String → Option (List Nat)) (path : String)
    (urls : List String) :
    ∀ fs q, q ≠ path → (easyTryList dl path urls fs).1 q = fs q := by
  induction urls with
  | nil => intro fs q _; rfl
  | cons u rest ih =>
    intro fs q h
    unfold easyTryList
    cases hdl : dl u with
    | none => exact ih fs q h
    | some content =>
      dsimp only
      by_cases hv : (verify_file (setFile fs path content) path).1 = true
      · rw [if_pos hv]
        exact setFile_ne fs path content q h
      · rw [if_neg hv, ih _ q h, setFile_ne _ _ _ _ h]

theorem easyTryList_isSome (dl : String → Option (List Nat)) (path : String)
    (urls : List String) :
    ∀ fs, (easyTryList dl path urls fs).2 = true →
      ((easyTryList dl path urls fs).1 path).isSome = true := by
  induction urls with
  | nil => intro fs h; exact absurd h (by simp [easyTryList])
  | cons u rest ih =>
    intro fs h
    unfold easyTryList at h ⊢
    cases hdl : dl u with
    | none => rw [hdl] at h; exact ih fs h
    | some content =>
      rw [hdl] at h
      dsimp only at h ⊢
      by_cases hv : (verify_file (setFile fs path content) path).1 = true
      · rw [if_pos hv]
        simp [setFile]
      · rw [if_neg hv] at h ⊢
        exact ih _ h

theorem easyAlternatives_isSome (dl : String → Option (List Nat)) (fs : FS)
    (m : EasyModel) :
    ((easyAlternatives dl fs m).1 m.filename).isSome = true := by
  unfold easyAlternatives
  by_cases h : (easyTryList dl m.filename m.alternative_urls fs).2 = true
  · simp only [if_pos h]
    exact easyTryList_isSome dl m.filename m.alternative_urls fs h
  · simp only [if_neg h]
    simp [create_minimal_tflite, setFile]

theorem easyAlternatives_frame (dl : String → Option (List Nat)) (fs : FS)
    (m : EasyModel) (q : String) (h : q ≠ m.filename) :
    (easyAlternatives dl fs m).1 q = fs q := by
  unfold easyAlternatives
  by_cases hr : (easyTryList dl m.filename m.alternative_urls fs).2 = true
  · simp only [if_pos hr]
    exact easyTryList_frame dl m.filename m.alternative_urls fs q h
  · simp only [if_neg hr]
    rw [create_minimal_tflite]
    dsimp only
    rw [setFile_ne _ _ _ _ h]
    exact easyTryList_frame dl m.filename m.alternative_urls fs q h

theorem easyProcess_isSome (dl : String → Option (List Nat)) (fs : FS)
    (m : EasyModel) :
    ((easyProcess dl fs m).1 m.filename).isSome = true := by
  unfold easyProcess
  by_cases hd : (try_direct_tflite_sources dl fs m.filename).2 = true
  · simp only [if_pos hd]
    unfold try_direct_tflite_sources at hd ⊢
    cases hl : directSources.lookup m.filename with
    | none => rw [hl] at hd; exact absurd hd (by simp)
    | some urls =>
      rw [hl] at hd
      exact easyTryList_isSome dl m.filename urls fs hd
  · simp only [if_neg hd]
    cases hdl : dl m.url with
    | none => exact easyAlternatives_isSome dl _ m
    | some content =>
      dsimp only
      by_cases hv :
          (verify_file (setFile (try_direct_tflite_sources dl fs m.filename).1
            m.filename content) m.filename).1 = true
      · rw [if_pos hv]
        simp [setFile]
      · rw [if_neg hv]
        exact easyAlternatives_isSome dl _ m

theorem easyProcess_frame (dl : String → Option (List Nat)) (fs : FS)
    (m : EasyModel) (q : String) (h : q ≠ m.filename) :
    (easyProcess dl fs m).1 q = fs q := by
  have hdirect : (try_direct_tflite_sources dl fs m.filename).1 q = fs q := by
    unfold try_direct_tflite_sources
    cases hl : directSources.lookup m.filename with
    | none => rfl
    | some urls => exact easyTryList_frame dl m.filename urls fs q h
  unfold easyProcess
  by_cases hd : (try_direct_tflite_sources dl fs m.filename).2 = true
  · simp only [if_pos hd]
    exact hdirect
  · simp only [if_neg hd]
    cases hdl : dl m.url with
    | none => rw [easyAlternatives_frame dl _ m q h]; exact hdirect
    | some content =>
      dsimp only
      by_cases hv :
          (verify_file (setFile (try_direct_tflite_sources dl fs m.filename).1
            m.filename content) m.filename).1 = true
      · rw [if_pos hv]
        dsimp only
        rw [setFile_ne _ _ _ _ h]
        exact hdirect
      · rw [if_neg hv, easyAlternatives_frame dl _ m q h,
          setFile_ne _ _ _ _ h]
        exact hdirect

/-- C1 (amended): the placeholder-synthesis guarantee holds for the two
scripts that actually synthesize stubs.  For every download oracle and
every starting filesystem, after the main loops of
`scripts/download_ocr_tflite_direct.py` and
`scripts/download_easyocr_models.py` a file exists at each
target path — in particular also when every download fails
(`download_ocr_models.py` is the exception, see the counterexample). -/
theorem stub_scripts_leave_file_at_every_target
    (dl : String → Option (List Nat)) (fs : FS) :
    ((tfliteRun dl TFLITE_MODELS fs) "easyocr_text_detection.tflite").isSome = true ∧
    ((tfliteRun dl TFLITE_MODELS fs) "easyocr_text_recognition.tflite").isSome = true ∧
    ((easyRun dl EASY_MODELS fs) "easyocr_text_detection.tflite").isSome = true ∧
    ((easyRun dl EASY_MODELS fs) "easyocr_text_recognition.tflite").isSome = true := by
  have hne : "easyocr_text_detection.tflite" ≠ recDirectModel.filename := by decide
  have hne' : "easyocr_text_detection.tflite" ≠ easyRecModel.filename := by decide
  refine ⟨?_, ?_, ?_, ?_⟩
  · show ((tfliteProcess dl (tfliteProcess dl fs detDirectModel).1
        recDirectModel).1 "easyocr_text_detection.tflite").isSome = true
    rw [tfliteProcess_frame dl _ recDirectModel _ hne]
    exact tfliteProcess_isSome dl fs detDirectModel
  · exact tfliteProcess_isSome dl (tfliteProcess dl fs detDirectModel).1
      recDirectModel
  · show ((easyProcess dl (easyProcess dl fs easyDetModel).1
        easyRecModel).1 "easyocr_text_detection.tflite").isSome = true
    rw [easyProcess_frame dl _ easyRecModel _ hne']
    exact easyProcess_isSome dl fs easyDetModel
  · exact easyProcess_isSome dl (easyProcess dl fs easyDetModel).1 easyRecModel

/-- A 2048-byte all-zero file: large enough to pass the size check, but
its leading bytes are not the `TFL3` magic bytes. -/
def fsBadMagic : FS := setFile fsEmpty "model.tflite" (List.replicate 2048 0)

theorem verify_file_fst_of_some (fs : FS) (filename : String)
    (content : List Nat) (hc : fs filename = some content) :
    (verify_file fs filename).1 = true := by
  simp [verify_file, hc]

theorem verify_tflite_fst_of_large (fs : FS) (filename : String)
    (content : List Nat) (e : Option ℚ) (hc : fs filename = some content)
    (hlen : 1024 ≤ content.length) :
    (verify_tflite_model fs filename e).1 = true := by
  simp [verify_tflite_model, hc, Nat.not_lt.mpr hlen]

theorem fsBadMagic_eq :
    fsBadMagic "model.tflite" = some (List.replicate 2048 0) := by
  unfold fsBadMagic setFile
  rw [if_pos rfl]

theorem fsBadMagic_len : 1024 ≤ (List.replicate 2048 (0 : Nat)).length := by
  rw [List.length_replicate]
  decide

/-- Counterexample to C4 as stated: an existing 2048-byte file whose
first bytes are NOT the `TFL3` magic is nevertheless ACCEPTED by both
verification functions — `verify_file` and `verify_tflite_model` return
`True`, not `False` (the missing magic only selects a warning
message). -/
theorem verify_magic_counterexample :
    tfl3Magic.isPrefixOf ((List.replicate 2048 (0 : Nat)).take 8) = false ∧
    (verify_file fsBadMagic "model.tflite").1 = true ∧
    (verify_tflite_model fsBadMagic "model.tflite" (some (23/10))).1 = true :=
  ⟨by decide,
   verify_file_fst_of_some fsBadMagic "model.tflite" _ fsBadMagic_eq,
   verify_tflite_fst_of_large fsBadMagic "model.tflite" _ (some (23/10))
     fsBadMagic_eq fsBadMagic_len⟩

/-- C4 (amended): the verification functions never reject a file for its
magic bytes.  `verify_file` accepts every existing file, and
`verify_tflite_model` accepts every existing file of at least 1024
bytes, whatever their first bytes are; a missing `TFL3` magic only
produces a warning message.  (Rejection happens only for missing files,
and in `verify_tflite_model` for files smaller than 1024 bytes.) -/
theorem verifiers_accept_any_existing_file
    (fs : FS) (filename : String) (content : List Nat) (e : Option ℚ)
    (hc : fs filename = some content) (hlen : 1024 ≤ content.length) :
    (verify_file fs filename).1 = true ∧
    (verify_tflite_model fs filename e).1 = true :=
  ⟨verify_file_fst_of_some fs filename content hc,
   verify_tflite_fst_of_large fs filename content e hc hlen⟩

/-- Witness for the amended C4: both verifiers accept the concrete
2048-byte zero file. -/
theorem verifiers_accept_any_existing_file_witness :
    (verify_file fsBadMagic "model.tflite").1 = true ∧
    (verify_tflite_model fsBadMagic "model.tflite" none).1 = true :=
  verifiers_accept_any_existing_file fsBadMagic "model.tflite"
    (List.replicate 2048 0) none fsBadMagic_eq fsBadMagic_len

theorem verify_tflite_fst_of_small (fs : FS) (filename : String)
    (content : List Nat) (e : Option ℚ) (hc : fs filename = some content)
    (hlt : content.length < 1024) :
    (verify_tflite_model fs filename e).1 = false := by
  simp [verify_tflite_model, hc, hlt]

set_option maxRecDepth 100000 in
/-- C9: after `create_working_tflite_model(filename)` returns `True`,
the file at `filename` is exactly 512 bytes, its first 4 bytes are
`0x18 0x00 0x00 0x00` (the `TFL3` magic occurs only at offset 4), and a
subsequent `verify_tflite_model(filename, _)` returns `False` because
512 bytes is below the 1024-byte minimum. -/
theorem stub_fails_own_verifier (fs : FS) (filename description : String)
    (e : Option ℚ) :
    (create_working_tflite_model fs filename description).1 = true ∧
    ∃ data,
      (create_working_tflite_model fs filename description).2 filename = some data ∧
      data.length = 512 ∧
      data.take 4 = [0x18, 0x00, 0x00, 0x00] ∧
      magicPositions data = [4] ∧
      (verify_tflite_model
        ((create_working_tflite_model fs filename description).2) filename e).1 = false := by
  refine ⟨rfl, ?_⟩
  cases hdet : strContains filename.toLower "detection" with
  | true =>
    have hset : (create_working_tflite_model fs filename description).2 filename =
        some (detectionHeaderBytes ++
          List.replicate (512 - detectionHeaderBytes.length) 0) := by
      unfold create_working_tflite_model
      dsimp only
      rw [hdet, if_pos rfl]
      exact setFile_self _ _ _
    have hlen : (detectionHeaderBytes ++
        List.replicate (512 - detectionHeaderBytes.length) 0).length = 512 := by
      decide
    refine ⟨_, hset, hlen, by decide, by decide, ?_⟩
    exact verify_tflite_fst_of_small _ filename _ e hset (by rw [hlen]; decide)
  | false =>
    have hset : (create_working_tflite_model fs filename description).2 filename =
        some (recognitionHeaderBytes ++
          List.replicate (512 - recognitionHeaderBytes.length) 0) := by
      unfold create_working_tflite_model
      dsimp only
      rw [hdet, if_neg (by decide)]
      exact setFile_self _ _ _
    have hlen : (recognitionHeaderBytes ++
        List.replicate (512 - recognitionHeaderBytes.length) 0).length = 512 := by
      decide
    refine ⟨_, hset, hlen, by decide, by decide, ?_⟩
    exact verify_tflite_fst_of_small _ filename _ e hset (by rw [hlen]; decide)

/-! ### Lemmas about the backup-URL loop of
`download_and_convert_ocr_models.py` -/

theorem getLast?_cons_of_getLast? (w : String) (l : List String) (u : String)
    (h : l.getLast? = some u) : (w :: l).getLast? = some u := by
  cases l with
  | nil => simp at h
  | cons x xs => rw [List.getLast?_cons_cons]; exact h

theorem dropLast_cons_fail (dl : String → Option (List Nat))
    (v : List Nat → Bool) (w : String) (l : List String)
    (hw : urlSucceeds dl v w = false)
    (hl : ∀ u ∈ l.dropLast, urlSucceeds dl v u = false) :
    ∀ u ∈ (w :: l).dropLast, urlSucceeds dl v u = false := by
  intro u hu
  cases l with
  | nil => simp at hu
  | cons x xs =>
    rw [List.dropLast_cons₂] at hu
    rcases List.mem_cons.mp hu with h | h
    · subst h; exact hw
    · exact hl u h

theorem tryBackupUrls_tail_pre (dl : String → Option (List Nat))
    (v : List Nat → Bool) :
    ∀ urls, (tryBackupUrls dl v urls).2 <+: urls := by
  intro urls
  induction urls with
  | nil => exact List.nil_prefix
  | cons u rest ih =>
    unfold tryBackupUrls
    cases hdl : dl u with
    | none =>
      dsimp only
      exact List.cons_prefix_cons.mpr ⟨rfl, ih⟩
    | some c =>
      dsimp only
      by_cases hv : v c = true
      · rw [if_pos hv]
        exact List.cons_prefix_cons.mpr ⟨rfl, List.nil_prefix⟩
      · rw [if_neg hv]
        dsimp only
        exact List.cons_prefix_cons.mpr ⟨rfl, ih⟩

theorem tryBackupUrls_dropLast_fail (dl : String → Option (List Nat))
    (v : List Nat → Bool) :
    ∀ urls, ∀ u ∈ (tryBackupUrls dl v urls).2.dropLast,
      urlSucceeds dl v u = false := by
  intro urls
  induction urls with
  | nil => intro u hu; simp [tryBackupUrls] at hu
  | cons w rest ih =>
    unfold tryBackupUrls
    cases hdl : dl w with
    | none =>
      dsimp only
      refine dropLast_cons_fail dl v w _ ?_ ih
      unfold urlSucceeds
      rw [hdl]
    | some c =>
      dsimp only
      by_cases hv : v c = true
      · rw [if_pos hv]
        intro u hu
        simp at hu
      · rw [if_neg hv]
        dsimp only
        refine dropLast_cons_fail dl v w _ ?_ ih
        unfold urlSucceeds
        rw [hdl]
        simpa using hv

theorem tryBackupUrls_success_last (dl : String → Option (List Nat))
    (v : List Nat → Bool) :
    ∀ urls c, (tryBackupUrls dl v urls).1 = some c →
      ∃ u, (tryBackupUrls dl v urls).2.getLast? = some u ∧
        urlSucceeds dl v u = true := by
  intro urls
  induction urls with
  | nil => intro c hc; simp [tryBackupUrls] at hc
  | cons w rest ih =>
    intro c hc
    unfold tryBackupUrls at hc ⊢
    cases hdl : dl w with
    | none =>
      rw [hdl] at hc
      dsimp only at hc ⊢
      obtain ⟨u, hu1, hu2⟩ := ih c hc
      exact ⟨u, getLast?_cons_of_getLast? w _ u hu1, hu2⟩
    | some cc =>
      rw [hdl] at hc
      dsimp only at hc ⊢
      by_cases hv : v cc = true
      · rw [if_pos hv] at hc ⊢
        refine ⟨w, by simp, ?_⟩
        unfold urlSucceeds
        rw [hdl]
        exact hv
      · rw [if_neg hv] at hc ⊢
        dsimp only at hc ⊢
        obtain ⟨u, hu1, hu2⟩ := ih c hc
        exact ⟨u, getLast?_cons_of_getLast? w _ u hu1, hu2⟩

/-- C2: prioritized fallback.  For every model entry of
`download_and_convert_ocr_models.py`: the primary URL is attempted
first; when the primary download succeeds and passes verification, the
attempt list is exactly the primary URL (no backup is attempted); the
backups attempted form a prefix of `backup_urls` (their listed order);
every attempted URL except the last is a non-success; and when a
download is returned, the last attempted URL succeeded (the loop stops
at the first success).  The final conjunct covers
`download_ocr_models.py`: when the primary download succeeds, only the
primary URL is attempted for that model. -/
theorem prioritized_fallback (dl : String → Option (List Nat))
    (v : List Nat → Bool) (m : OnnxModel) :
    (downloadOnnx dl v m).2.head? = some m.url ∧
    (∀ c, dl m.url = some c → v c = true →
      (downloadOnnx dl v m).2 = [m.url]) ∧
    (downloadOnnx dl v m).2.tail <+: m.backup_urls ∧
    (∀ u ∈ (downloadOnnx dl v m).2.dropLast, urlSucceeds dl v u = false) ∧
    (∀ c, (downloadOnnx dl v m).1 = some c →
      ∃ u, (downloadOnnx dl v m).2.getLast? = some u ∧
        urlSucceeds dl v u = true) ∧
    (∀ (tm : TessModel) (fs : FS) c, fs (assetsPath tm.filename) = none →
      dl tm.url = some c → (tessRun dl [tm] fs).2.2 = [tm.url]) := by
  refine ⟨?_, ?_, ?_, ?_, ?_, ?_⟩
  · unfold downloadOnnx
    cases hdl : dl m.url with
    | none => rfl
    | some c =>
      dsimp only
      by_cases hv : v c = true
      · rw [if_pos hv]
        rfl
      · rw [if_neg hv]
        rfl
  · intro c hc hv
    unfold downloadOnnx
    rw [hc]
    dsimp only
    rw [if_pos hv]
  · unfold downloadOnnx
    cases hdl : dl m.url with
    | none =>
      dsimp only
      exact tryBackupUrls_tail_pre dl v m.backup_urls
    | some c =>
      dsimp only
      by_cases hv : v c = true
      · rw [if_pos hv]
        exact List.nil_prefix
      · rw [if_neg hv]
        dsimp only
        exact tryBackupUrls_tail_pre dl v m.backup_urls
  · intro u hu
    unfold downloadOnnx at hu
    cases hdl : dl m.url with
    | none =>
      rw [hdl] at hu
      dsimp only at hu
      refine dropLast_cons_fail dl v m.url _ ?_
        (tryBackupUrls_dropLast_fail dl v m.backup_urls) u hu
      unfold urlSucceeds
      rw [hdl]
    | some c =>
      rw [hdl] at hu
      dsimp only at hu
      by_cases hv : v c = true
      · rw [if_pos hv] at hu
        simp at hu
      · rw [if_neg hv] at hu
        dsimp only at hu
        refine dropLast_cons_fail dl v m.url _ ?_
          (tryBackupUrls_dropLast_fail dl v m.backup_urls) u hu
        unfold urlSucceeds
        rw [hdl]
        simpa using hv
  · intro c hc
    unfold downloadOnnx at hc ⊢
    cases hdl : dl m.url with
    | none =>
      rw [hdl] at hc
      dsimp only at hc ⊢
      obtain ⟨u, hu1, hu2⟩ := tryBackupUrls_success_last dl v m.backup_urls c hc
      exact ⟨u, getLast?_cons_of_getLast? m.url _ u hu1, hu2⟩
    | some cc =>
      rw [hdl] at hc
      dsimp only at hc ⊢
      by_cases hv : v cc = true
      · rw [if_pos hv] at hc ⊢
        refine ⟨m.url, by simp, ?_⟩
        unfold urlSucceeds
        rw [hdl]
        exact hv
      · rw [if_neg hv] at hc ⊢
        dsimp only at hc ⊢
        obtain ⟨u, hu1, hu2⟩ := tryBackupUrls_success_last dl v m.backup_urls c hc
        exact ⟨u, getLast?_cons_of_getLast? m.url _ u hu1, hu2⟩
  · intro tm fs c hpre hdl2
    unfold tessRun
    simp only [hpre, hdl2, Option.isSome_none, Bool.false_and,
      Bool.false_eq_true, if_false]
    rfl

/-- A download oracle for which every download returns `[1]`, and a
verifier accepting everything. -/
def dlAll1 : String → Option (List Nat) := fun _ => some [1]

def vTrue : List Nat → Bool := fun _ => true

/-- Witness for C2: when the primary download succeeds and verifies, the
attempt list is exactly the primary URL, for the loops of both scripts. -/
theorem prioritized_fallback_witness :
    (downloadOnnx dlAll1 vTrue craftOnnxModel).2 = [craftOnnxModel.url] ∧
    (tessRun dlAll1 [engModel] fsEmpty).2.2 = [engModel.url] := by
  have h := prioritized_fallback dlAll1 vTrue craftOnnxModel
  exact ⟨h.2.1 [1] rfl rfl, h.2.2.2.2.2 engModel fsEmpty [1] rfl rfl⟩

/-- C5: `main()` of `tests/generate_working_images.py` always saves
exactly two PNG images in the script directory: a 600x400
white-background image with the three WiFi-credential texts, and an
800x200 image whose single text "HELLO CAMERA TEST" is centered via the
font bounding box. -/
theorem generate_images_spec (tests_dir : String) (bbox : ℤ × ℤ × ℤ × ℤ) :
    ∃ wifi simple,
      generateMain tests_dir bbox =
        [(tests_dir ++ "/working_wifi_test_image.png", wifi),
         (tests_dir ++ "/working_simple_test_image.png", simple)] ∧
      wifi.width = 600 ∧ wifi.height = 400 ∧ wifi.background = "white" ∧
      wifi.texts.map TextDraw.text =
        ["SSID: TestNetwork", "Password: password123", "Security: WPA2"] ∧
      simple.width = 800 ∧ simple.height = 200 ∧ simple.background = "white" ∧
      simple.texts =
        [⟨Int.fdiv (800 - (bbox.2.2.1 - bbox.1)) 2,
          Int.fdiv (200 - (bbox.2.2.2 - bbox.2.1)) 2,
          "HELLO CAMERA TEST", "black"⟩] :=
  ⟨create_wifi_test_image, create_simple_test_image bbox,
   rfl, rfl, rfl, rfl, rfl, rfl, rfl, rfl, rfl⟩

/-- C6: when `convert_onnx_to_tflite(onnx_path, tflite_path)` returns
`True`, the pipeline ran in the order ONNX → TensorFlow SavedModel (in
the temporary directory) → TensorFlow Lite, and the TFLite bytes were
written to `tflite_path`; the return value is `True` exactly when every
external step succeeds, so any exception in the pipeline yields
`False`. -/
theorem convert_pipeline_order (env : ConvEnv) (fs : FS)
    (temp_dir onnx_path tflite_path : String) :
    ((convert_onnx_to_tflite env fs temp_dir onnx_path tflite_path).1 = true ↔
      convOk env onnx_path = true) ∧
    ((convert_onnx_to_tflite env fs temp_dir onnx_path tflite_path).1 = true →
      ∃ bytes,
        (convert_onnx_to_tflite env fs temp_dir onnx_path tflite_path).2.1
          tflite_path = some bytes ∧
        (convert_onnx_to_tflite env fs temp_dir onnx_path tflite_path).2.2 =
          [ConvEvent.loadedOnnx onnx_path,
           ConvEvent.exportedSavedModel (tfModelPath temp_dir),
           ConvEvent.convertedTFLite,
           ConvEvent.wroteTFLite tflite_path bytes]) := by
  unfold convert_onnx_to_tflite convOk
  cases h1 : env.load_onnx onnx_path with
  | none => simp
  | some onnx_model =>
    dsimp only
    cases h2 : env.prepare onnx_model with
    | none => simp
    | some tf_rep =>
      dsimp only
      cases h3 : env.export_graph tf_rep with
      | none => simp
      | some saved_model =>
        dsimp only
        cases h4 : env.from_saved_model saved_model with
        | none => simp
        | some converter =>
          dsimp only
          cases h5 : env.convert converter with
          | none => simp
          | some tflite_model =>
            dsimp only
            refine ⟨by simp, fun _ => ?_⟩
            exact ⟨tflite_model, setFile_self _ _ _, rfl⟩

/-- Witness for C6: with every external step succeeding, the conversion
returns `True` and the trace shows load, export, convert, write in
order. -/
theorem convert_pipeline_order_witness :
    (convert_onnx_to_tflite envOk fsEmpty "tmp" "a.onnx" "b.tflite").1 = true ∧
    (convert_onnx_to_tflite envOk fsEmpty "tmp" "a.onnx" "b.tflite").2.2 =
      [ConvEvent.loadedOnnx "a.onnx",
       ConvEvent.exportedSavedModel (tfModelPath "tmp"),
       ConvEvent.convertedTFLite,
       ConvEvent.wroteTFLite "b.tflite" [5]] := by
  have h1 : (convert_onnx_to_tflite envOk fsEmpty "tmp" "a.onnx" "b.tflite").1 = true :=
    (convert_pipeline_order envOk fsEmpty "tmp" "a.onnx" "b.tflite").1.mpr rfl
  obtain ⟨bytes, hb, htr⟩ :=
    (convert_pipeline_order envOk fsEmpty "tmp" "a.onnx" "b.tflite").2 h1
  have hb5 : (convert_onnx_to_tflite envOk fsEmpty "tmp" "a.onnx"
      "b.tflite").2.1 "b.tflite" = some [5] := rfl
  have hbytes : bytes = [5] := Option.some.inj (hb.symm.trans hb5)
  subst hbytes
  exact ⟨h1, htr⟩

/-- C7: `main` of `scripts/setup_keras_ocr.py` returns `True` only if
the source model exists, its first 8 bytes contain the `TFL3` magic, and
after the copy the destination in `app/src/main/assets` exists with
exactly the byte size of the source; a missing source or a failed magic check
yields `False` with no copy performed. -/
theorem setup_keras_ocr_spec (fs : FS7) (script_dir : List String) :
    ((setupMain fs script_dir).1 = true →
      ∃ c, fs (srcPath script_dir) = some c ∧
        containsMagic (c.take 8) = true ∧
        ∃ d, (setupMain fs script_dir).2.1 (destPath script_dir) = some d ∧
          d.length = c.length) ∧
    (fs (srcPath script_dir) = none → setupMain fs script_dir = (false, fs, [])) ∧
    (∀ c, fs (srcPath script_dir) = some c → containsMagic (c.take 8) = false →
      setupMain fs script_dir = (false, fs, [])) := by
  refine ⟨?_, ?_, ?_⟩
  · intro h
    unfold setupMain at h ⊢
    dsimp only at h ⊢
    cases hs : fs (srcPath script_dir) with
    | none =>
      rw [hs] at h
      simp at h
    | some content =>
      rw [hs] at h
      dsimp only at h ⊢
      by_cases hm : containsMagic (content.take 8) = false
      · rw [if_pos hm] at h
        simp at h
      · rw [if_neg hm] at h ⊢
        have hd : copyFile7 fs (srcPath script_dir) (destPath script_dir)
            (destPath script_dir) = some content := by
          unfold copyFile7
          rw [if_pos rfl]
          exact hs
        rw [hd] at h ⊢
        dsimp only at h ⊢
        rw [if_pos rfl] at h ⊢
        have hm' : containsMagic (content.take 8) = true := by
          revert hm
          cases containsMagic (content.take 8) <;> simp
        exact ⟨content, rfl, hm', content, hd, rfl⟩
  · intro h
    unfold setupMain
    dsimp only
    rw [h]
  · intro c hc hm
    unfold setupMain
    dsimp only
    rw [hc]
    dsimp only
    rw [if_pos hm]

/-- Witness for C7: with no file at the source path, `main` returns
`False` without copying. -/
theorem setup_keras_ocr_spec_witness :
    setupMain fsEmpty7 ["repo", "scripts"] = (false, fsEmpty7, []) :=
  (setup_keras_ocr_spec fsEmpty7 ["repo", "scripts"]).2.1 rfl

theorem craftDownloadStep_counted (dl : String → DlResult) (fs : FS)
    (m : CraftModel) (h : (craftDownloadStep dl fs m).2.1 = true) :
    ∃ c, (craftDownloadStep dl fs m).1 m.file = some c ∧ c.length > 10000 := by
  unfold craftDownloadStep at h ⊢
  cases hdl : dl m.url with
  | ok content =>
    rw [hdl] at h
    dsimp only at h ⊢
    by_cases hlen : content.length > 10000
    · rw [if_pos hlen] at h ⊢
      exact ⟨content, setFile_self _ _ _, hlen⟩
    · rw [if_neg hlen] at h
      simp at h
  | fail p =>
    cases p with
    | none =>
      rw [hdl] at h
      simp at h
    | some pc =>
      rw [hdl] at h
      simp at h

/-- C10: in `download_craft_keras_tflite_models.py` a model counts as
successful only when a file larger than 10000 bytes is at its target
path: a pre-existing file larger than 10000 bytes is reused without
downloading and left unchanged, and a freshly downloaded file of 10000
bytes or fewer is unlinked from the target path and not counted. -/
theorem craft_success_iff_large (dl : String → DlResult) (fs : FS)
    (m : CraftModel) :
    ((craftProcess dl fs m).2.1 = true →
      ∃ c, (craftProcess dl fs m).1 m.file = some c ∧ c.length > 10000) ∧
    (∀ c, fs m.file = some c → c.length > 10000 →
      craftProcess dl fs m = (fs, true, false)) ∧
    (∀ content, (∀ c, fs m.file = some c → ¬ c.length > 10000) →
      dl m.url = DlResult.ok content → ¬ content.length > 10000 →
      (craftProcess dl fs m).2.1 = false ∧
      (craftProcess dl fs m).1 m.file = none) := by
  refine ⟨?_, ?_, ?_⟩
  · intro h
    unfold craftProcess at h ⊢
    cases hf : fs m.file with
    | none =>
      rw [hf] at h
      exact craftDownloadStep_counted dl fs m h
    | some existing =>
      rw [hf] at h
      dsimp only at h ⊢
      by_cases hl : existing.length > 10000
      · rw [if_pos hl] at h ⊢
        exact ⟨existing, hf, hl⟩
      · rw [if_neg hl] at h ⊢
        exact craftDownloadStep_counted dl fs m h
  · intro c hc hlen
    unfold craftProcess
    rw [hc]
    dsimp only
    rw [if_pos hlen]
  · intro content hsmall hdl hlen
    have hstep : (craftDownloadStep dl fs m).2.1 = false ∧
        (craftDownloadStep dl fs m).1 m.file = none := by
      unfold craftDownloadStep
      rw [hdl]
      dsimp only
      rw [if_neg hlen]
      refine ⟨rfl, ?_⟩
      dsimp only
      unfold eraseFile
      rw [if_pos rfl]
    unfold craftProcess
    cases hf : fs m.file with
    | none => exact hstep
    | some existing =>
      dsimp only
      rw [if_neg (hsmall existing hf)]
      exact hstep

/-- A download oracle for which every craft download fails cleanly. -/
def dlCraftFail : String → DlResult := fun _ => DlResult.fail none

/-- A filesystem with a 20000-byte file already at the target path of the detection model. -/
def fsBig : FS :=
  setFile fsEmpty craftDetCraftModel.file (List.replicate 20000 0)

theorem fsBig_eq :
    fsBig craftDetCraftModel.file = some (List.replicate 20000 0) := by
  unfold fsBig setFile
  rw [if_pos rfl]

theorem fsBig_len : (List.replicate 20000 (0 : Nat)).length > 10000 := by
  rw [List.length_replicate]
  decide

/-- Witness for C10: a pre-existing 20000-byte file is reused without a
download and the filesystem is unchanged. -/
theorem craft_success_iff_large_witness :
    craftProcess dlCraftFail fsBig craftDetCraftModel = (fsBig, true, false) :=
  (craft_success_iff_large dlCraftFail fsBig craftDetCraftModel).2.1
    (List.replicate 20000 0) fsBig_eq fsBig_len
